import Mathlib

set_option maxRecDepth 16384

/-!  Verification of `tabutils.convert` (src/tabutils/convert.py), the scalar
coercion helpers of the tabutils library.

Python values crossing the coercion boundary are embedded as `Scalar`;
Python exceptions as `PyErr`.  Each public coercer is embedded as a function
returning `Except PyErr _`, where `Except.error e` models an exception `e`
escaping the public function and `Except.ok` models a normal return
(`Option` distinguishes Python `None` results from real values).

Machine floats are modelled as `FloatModel`: either the exact value
`num / 10 ^ scale` of the decimal literal being parsed, or an infinity —
`float()` on a string saturates over-range decimal literals to ±inf (IEEE-754
binary64 overflow, threshold `2 ^ 1024 - 2 ^ 970`), after which `int()`
raises `OverflowError`.  Finite literals keep their exact decimal value: no
claim distinguishes values closer together than their literals, so binary64
rounding of in-range values is never relied on.  `decimal.Decimal` values
are modelled as a mantissa/exponent pair, which is exactly the information
`quantize` acts on; `quantize` enforces the default context precision of 28
coefficient digits, signalling `InvalidOperation` beyond it.

The helper module `tabutils.fntools` (imported as `ft`) is not under src/;
its members used here (`strip`, `DEF_TRUES`) are modelled from the spec, as
marked in their doc comments.  `dateutil.parser.parse` is an external
library; it is modelled on the numeric month/day/year grammar exercised by
the module's own doctests, as documented at `parseModel`. -/

instance {ε α : Type} [DecidableEq ε] [DecidableEq α] : DecidableEq (Except ε α) :=
  fun a b =>
    match a, b with
    | .ok x, .ok y =>
      if h : x = y then .isTrue (by rw [h]) else .isFalse (by intro hc; cases hc; exact h rfl)
    | .error x, .error y =>
      if h : x = y then .isTrue (by rw [h]) else .isFalse (by intro hc; cases hc; exact h rfl)
    | .ok _, .error _ => .isFalse (by intro hc; cases hc)
    | .error _, .ok _ => .isFalse (by intro hc; cases hc)

/-- Python exception kinds arising in `tabutils.convert`. -/
inductive PyErr where
  | valueError
  | typeError
  | attributeError
  | invalidOperation
  | overflowError
deriving DecidableEq

/-- A Python float: either the exact value `num / 10 ^ scale` of the decimal
literal it was parsed from, or an infinity (the saturated result of an
over-range literal). -/
inductive FloatModel where
  | finite (num : Int) (scale : Nat)
  | inf (neg : Bool)
deriving DecidableEq

/-- A loosely typed Python scalar at the coercion boundary: string, int,
float, bool, or `None`. -/
inductive Scalar where
  | str (s : String)
  | intV (n : Int)
  | floatV (f : FloatModel)
  | boolV (b : Bool)
  | noneV
deriving DecidableEq

/-- `beginsWith s pat` : `pat` is a prefix of `s` (Python `str.startswith`). -/
def beginsWith : List Char → List Char → Bool
  | _, [] => true
  | [], _ :: _ => false
  | c :: cs, p :: ps => c = p && beginsWith cs ps

/-- `containsSub s pat` : `pat` occurs as a contiguous substring of `s`
(Python `pat in s` for strings). -/
def containsSub : List Char → List Char → Bool
  | [], pat => pat.isEmpty
  | c :: rest, pat => beginsWith (c :: rest) pat || containsSub rest pat

/-- Split a character list at every occurrence of `sep`
(Python `str.split(sep)`). -/
def splitChar (sep : Char) : List Char → List (List Char)
  | [] => [[]]
  | c :: rest =>
    if c = sep then [] :: splitChar sep rest
    else
      match splitChar sep rest with
      | x :: xs => (c :: x) :: xs
      | [] => [[c]]

/-- Worker for `replaceAll`, structurally recursive on a fuel bound: each
step consumes at least one character of `s`, so `fuel = s.length` never runs
out (the `0, s` case is unreachable for such fuel). -/
def replaceAllAux : Nat → List Char → List Char → List Char → List Char
  | _, [], _, _ => []
  | 0, s, _, _ => s
  | fuel + 1, c :: rest, pat, rep =>
    if !pat.isEmpty && beginsWith (c :: rest) pat then
      rep ++ replaceAllAux fuel (rest.drop (pat.length - 1)) pat rep
    else
      c :: replaceAllAux fuel rest pat rep

/-- Replace every (left-to-right, non-overlapping) occurrence of `pat` in `s`
by `rep` (Python `str.replace(pat, rep)`). -/
def replaceAll (s pat rep : List Char) : List Char :=
  replaceAllAux s.length s pat rep

/-- All characters are ASCII digits. -/
def allDigits : List Char → Bool
  | [] => true
  | c :: rest => c.isDigit && allDigits rest

/-- Numeric value of a digit string (most significant first). -/
def digitsVal (l : List Char) : Nat :=
  l.foldl (fun a c => a * 10 + (c.toNat - 48)) 0

/-- One character of the separator normalizer: drop the thousands separator,
canonicalize the decimal separator to '.', keep digits and a sign, and drop
anything else (currency glyphs and other noise). -/
def normChar (tsep dsep c : Char) : Option Char :=
  if c = tsep then none
  else if c = dsep then some '.'
  else if c.isDigit || c = '-' then some c
  else none

/-- Separator normalization of a character string. -/
def stripChars (tsep dsep : Char) (l : List Char) : List Char :=
  l.filterMap (normChar tsep dsep)

/-- Modelled from the spec: `fntools.strip` (called as `ft.strip`); its module
is not under src/.  Spec 4.1: given a string, strip currency symbols and the
thousands separator, replace the decimal separator with a canonical '.', and
drop non-numeric noise characters.  It is defined on strings; on non-string
input the surrounding parse call fails, and each caller catches exactly that
failure (spec 6: all coercers accept `None` and return the null sentinel). -/
def stripScalar (value : Scalar) (tsep dsep : Char) : Option (List Char) :=
  match value with
  | .str s => some (stripChars tsep dsep s.toList)
  | _ => none

/-- The smallest positive real that IEEE-754 binary64 round-to-nearest-even
rounds to +infinity: the midpoint `2 ^ 1024 - 2 ^ 970` between the largest
finite double and `2 ^ 1024` (the tie has the even significand on the
infinite side). -/
def DBL_OVERFLOW : Nat := 2 ^ 1024 - 2 ^ 970

/-- Whether the decimal literal value `n / 10 ^ scale` overflows binary64,
i.e. `float()` on it returns an infinity. -/
def floatOverflows (n : Nat) (scale : Nat) : Bool :=
  decide (DBL_OVERFLOW * 10 ^ scale ≤ n)

/-- Build the `float()` result of a parsed literal: an infinity when the
magnitude overflows binary64, otherwise the exact literal value. -/
def mkFloat (neg : Bool) (n : Nat) (scale : Nat) : FloatModel :=
  if floatOverflows n scale then .inf neg
  else .finite (if neg then -(n : Int) else (n : Int)) scale

/-- Parse a canonical decimal literal `[-]digits[.digits]` as a `FloatModel`
— the fragment of Python `float()` reachable after normalization (the
normalizer only emits digits, '.', and '-'), including the saturation of
over-range literals to ±inf. -/
def floatOfChars (l : List Char) : Option FloatModel :=
  let sb : Bool × List Char :=
    match l with
    | '-' :: rest => (true, rest)
    | _ => (false, l)
  match splitChar '.' sb.2 with
  | [ip] =>
    if allDigits ip && !ip.isEmpty then
      some (mkFloat sb.1 (digitsVal ip) 0)
    else none
  | [ip, fp] =>
    if allDigits ip && allDigits fp && !(ip.isEmpty && fp.isEmpty) then
      some (mkFloat sb.1 (digitsVal (ip ++ fp)) fp.length)
    else none
  | _ => none

/-- Python `int(float)`: truncate the exact value `num / 10 ^ scale` toward
zero; on an infinity, `int()` raises `OverflowError`. -/
def pyTrunc (f : FloatModel) : Except PyErr Int :=
  match f with
  | .finite n s => .ok (Int.tdiv n ((10 : Int) ^ s))
  | .inf _ => .error .overflowError

/-- `to_int` (src/tabutils/convert.py:134-167):
`int(float(ft.strip(value, thousand_sep, decimal_sep)))` with `ValueError`
caught and turned into `None`; the `OverflowError` that `int()` raises on an
infinite float is not caught and propagates. -/
def to_int (value : Scalar) (tsep dsep : Char) : Except PyErr (Option Int) :=
  match (stripScalar value tsep dsep).bind floatOfChars with
  | none => .ok none
  | some f =>
    match pyTrunc f with
    | .ok n => .ok (some n)
    | .error e => .error e

/-- A decimal integer literal (`'1'` followed by 309 zeros, value `10 ^ 309`)
large enough that `float()` saturates it to infinity. -/
def hugeLiteral : String :=
  String.mk ('1' :: List.replicate 309 '0')

/-- `to_float` (src/tabutils/convert.py:170-203):
`float(ft.strip(content, thousand_sep, decimal_sep))` with `ValueError`
caught and turned into `None`. -/
def to_float (content : Scalar) (tsep dsep : Char) : Except PyErr (Option FloatModel) :=
  match (stripScalar content tsep dsep).bind floatOfChars with
  | none => .ok none
  | some q => .ok (some q)

/-- A `decimal.Decimal` value as the pair (mantissa, exponent): the value is
`mant * 10 ^ exp`.  This is the exact information `quantize` acts on, and the
exponent records the number of fractional digits of the printed form. -/
structure DecimalModel where
  mant : Int
  exp : Int
deriving DecidableEq

/-- Parse a canonical decimal literal as a `DecimalModel`
(the fragment of the `Decimal` constructor reachable after normalization;
trailing zeros and the written exponent are preserved, as `Decimal` does). -/
def decimalOfChars (l : List Char) : Option DecimalModel :=
  let sb : Bool × List Char :=
    match l with
    | '-' :: rest => (true, rest)
    | _ => (false, l)
  match splitChar '.' sb.2 with
  | [ip] =>
    if allDigits ip && !ip.isEmpty then
      some ⟨if sb.1 then -(digitsVal ip : Int) else (digitsVal ip : Int), 0⟩
    else none
  | [ip, fp] =>
    if allDigits ip && allDigits fp && !(ip.isEmpty && fp.isEmpty) then
      some ⟨if sb.1 then -(digitsVal (ip ++ fp) : Int) else (digitsVal (ip ++ fp) : Int),
            -(fp.length : Int)⟩
    else none
  | _ => none

/-- Round `n / den` to the nearest integer, ties away from zero
(`decimal.ROUND_HALF_UP`), for `n ≥ 0` given as a `Nat`. -/
def divHalfUp (n den : Nat) : Nat :=
  (2 * n + den) / (2 * den)

/-- Round `n / den` to the nearest integer, ties toward zero
(`decimal.ROUND_HALF_DOWN`), for `n ≥ 0` given as a `Nat`. -/
def divHalfDown (n den : Nat) : Nat :=
  (2 * n + den - 1) / (2 * den)

/-- Signed half-up / half-down rounding of `n / den` (both rounding modes are
symmetric about zero). -/
def intHalf (roundup : Bool) (n : Int) (den : Nat) : Int :=
  let m := if roundup then divHalfUp n.natAbs den else divHalfDown n.natAbs den
  if n < 0 then -(m : Int) else (m : Int)

/-- The precision of Python's default decimal context
(`decimal.getcontext().prec`): results whose coefficient is longer than 28
digits make `quantize` signal `InvalidOperation`, which the default context
traps into an exception. -/
def DEC_PREC : Nat := 28

/-- Number of decimal digits of a natural number (`len(str(n))`; 0 has one
digit). -/
def numDigits (n : Nat) : Nat :=
  (Nat.toDigits 10 n).length

/-- `Decimal.quantize` under the default context: rescale `d` to exponent
`targetExp`, rounding half-up or half-down per `roundup` when digits are
dropped, and raise `InvalidOperation` when the resulting coefficient is
longer than the context precision of 28 digits. -/
def quantizeModel (d : DecimalModel) (targetExp : Int) (roundup : Bool) :
    Except PyErr DecimalModel :=
  let m : Int :=
    if targetExp ≤ d.exp then d.mant * (10 : Int) ^ (d.exp - targetExp).toNat
    else intHalf roundup d.mant ((10 : Nat) ^ (targetExp - d.exp).toNat)
  if DEC_PREC < numDigits m.natAbs then .error .invalidOperation
  else .ok ⟨m, targetExp⟩

/-- The quantization template string built by `to_decimal`
(src/tabutils/convert.py:254): `'.%s1' % ''.join(it.repeat('0', places - 1))`,
i.e. a dot, `places - 1` zeros (truncated Nat subtraction, as `it.repeat` with
a negative count yields nothing), and a final '1'. -/
def precisionChars (places : Nat) : List Char :=
  '.' :: (List.replicate (places - 1) '0' ++ ['1'])

/-- `to_decimal` (src/tabutils/convert.py:206-257):
`Decimal(ft.strip(content, ...))` with `InvalidOperation` caught and turned
into `None`, otherwise quantized against `Decimal('.%s1' % zeros)` with
`ROUND_HALF_UP` if `roundup` (Python default `True`) else `ROUND_HALF_DOWN`;
`places` defaults to 2 in Python.  The `quantize` call sits in the `else:`
block, outside the `try/except InvalidOperation`, so an `InvalidOperation`
signalled by `quantize` itself (coefficient longer than the context
precision) propagates to the caller. -/
def to_decimal (content : Scalar) (tsep dsep : Char) (roundup : Bool) (places : Nat) :
    Except PyErr (Option DecimalModel) :=
  match (stripScalar content tsep dsep).bind decimalOfChars with
  | none => .ok none
  | some d =>
    match decimalOfChars (precisionChars places) with
    | none => .ok none
    | some prec =>
      match quantizeModel d prec.exp roundup with
      | .error e => .error e
      | .ok q => .ok (some q)

/-- Modelled from the spec: `fntools.DEF_TRUES` (its module is not under
src/).  Spec 4.4: the default trues token set includes at least
"true", "y", "1" and their common variants. -/
def DEF_TRUES : List String :=
  ["true", "y", "1", "yes", "t"]

/-- ASCII lower-casing of one character (`str.lower` restricted to the
ASCII tokens the boolean coercer deals in). -/
def lowerChar (c : Char) : Char :=
  if 65 ≤ c.toNat ∧ c.toNat ≤ 90 then Char.ofNat (c.toNat + 32) else c

/-- ASCII `str.lower`. -/
def asciiLower (s : String) : String :=
  String.mk (s.toList.map lowerChar)

/-- `to_bool` (src/tabutils/convert.py:85-131):
`trues = set(map(str.lower, trues) if trues else ft.DEF_TRUES)`, then
`content.lower() in trues` with `AttributeError` (non-string content) caught
and turned into `bool(content)`.  The `falses` parameter is accepted by the
signature but never read in the body. -/
def to_bool (content : Scalar) (trues falses : Option (List String)) : Bool :=
  let ts : List String :=
    match trues with
    | some (x :: xs) => (x :: xs).map asciiLower
    | _ => DEF_TRUES
  match content with
  | .str s => ts.contains (asciiLower s)
  | .boolV b => b
  | .intV n => decide (n ≠ 0)
  | .floatV (.finite n _) => decide (n ≠ 0)
  | .floatV (.inf _) => true
  | .noneV => false

/-- A Python `datetime.datetime` value. -/
structure PyDateTime where
  year : Nat
  month : Nat
  day : Nat
  hour : Nat
  minute : Nat
  second : Nat
deriving DecidableEq

/-- `DEFAULT_DATETIME = datetime(9999, 12, 31, 0, 0, 0)`
(src/tabutils/convert.py:39), used to fill components the input leaves
unspecified. -/
def DEFAULT_DATETIME : PyDateTime :=
  ⟨9999, 12, 31, 0, 0, 0⟩

/-- Reference year for dateutil's two-digit year resolution (the library
resolves a two-digit year to the century closest to the year the parser
instance was created; 2015 is the repository's era, and every doctest value,
e.g. `'5/4/82'` ↦ 1982, resolves identically for any reference year between
the doctests' writing and today). -/
def CURRENT_YEAR : Nat := 2015

def natDist (a b : Nat) : Nat :=
  if a ≤ b then b - a else a - b

/-- dateutil's two-digit year conversion: map `y < 100` into the
century-window within 50 years of `CURRENT_YEAR`. -/
def convertYear (y : Nat) : Nat :=
  if y < 100 then
    let y2 := y + 2000
    if 50 ≤ natDist y2 CURRENT_YEAR then
      if y2 < CURRENT_YEAR then y2 + 100 else y2 - 100
    else y2
  else y

def leapYear (y : Nat) : Bool :=
  y % 4 = 0 && (y % 100 ≠ 0 || y % 400 = 0)

def daysInMonth (y m : Nat) : Nat :=
  if m = 2 then (if leapYear y then 29 else 28)
  else if m = 4 || m = 6 || m = 9 || m = 11 then 30
  else 31

/-- Outcome of `dateutil.parser.parse(content, default=...)` as observed by
`_to_datetime`: a datetime, a `ValueError` (structurally parseable but an
impossible calendar date), or a `TypeError` (genuinely unparseable input). -/
inductive ParseRes where
  | ok (d : PyDateTime)
  | valueError
  | typeError
deriving DecidableEq

/-- A slash-separated all-numeric date token. -/
def parseDateTok (t : List Char) : Option (Nat × Nat × Nat) :=
  match splitChar '/' t with
  | [a, b, c] =>
    if allDigits a && !a.isEmpty && allDigits b && !b.isEmpty && allDigits c && !c.isEmpty then
      some (digitsVal a, digitsVal b, digitsVal c)
    else none
  | _ => none

/-- An `H:MM` time token. -/
def parseTimeTok (t : List Char) : Option (Nat × Nat) :=
  match splitChar ':' t with
  | [h, m] =>
    if allDigits h && !h.isEmpty && allDigits m && !m.isEmpty then
      some (digitsVal h, digitsVal m)
    else none
  | _ => none

/-- Assemble and validate a parsed date (dateutil US ordering: a first number
above 31 is a year, otherwise month/day/year), using `default` for the
components the input does not supply.  A structurally parsed but impossible
calendar value is a `ValueError`, exactly the signal `_to_datetime` retries
on. -/
def mkDate (a b c : Nat) (default : PyDateTime) (hm : Option (Nat × Nat)) : ParseRes :=
  let ymd : Nat × Nat × Nat :=
    if 31 < a then (convertYear a, b, c) else (convertYear c, a, b)
  let y := ymd.1
  let m := ymd.2.1
  let d := ymd.2.2
  let hh := match hm with | some x => x.1 | none => default.hour
  let mm := match hm with | some x => x.2 | none => default.minute
  if 1 ≤ m ∧ m ≤ 12 ∧ 1 ≤ d ∧ d ≤ daysInMonth y m ∧ 1 ≤ y ∧ y ≤ 9999 ∧ hh ≤ 23 ∧ mm ≤ 59 then
    .ok ⟨y, m, d, hh, mm, default.second⟩
  else .valueError

/-- Model of the external `dateutil.parser.parse(content, default=default)`,
restricted to the numeric `M/D/Y[ H:MM]` grammar exercised by the module's
doctests: a parseable shape with an out-of-range calendar component raises
`ValueError` (doctest: `_to_datetime('2/32/82') = ('2/32/82', True)`), any
other shape raises `TypeError` (doctest:
`_to_datetime('Novmbr 4') = (None, False)`), and a valid date parses with
unspecified components taken from `default`
(doctest: `_to_datetime('5/4/82') = (datetime(1982, 5, 4, 0, 0), False)`). -/
def parseModel (s : List Char) (default : PyDateTime) : ParseRes :=
  match (splitChar ' ' s).filter (fun t => !t.isEmpty) with
  | [d] =>
    match parseDateTok d with
    | some abc => mkDate abc.1 abc.2.1 abc.2.2 default none
    | none => .typeError
  | [d, t] =>
    match parseDateTok d, parseTimeTok t with
    | some abc, some hm => mkDate abc.1 abc.2.1 abc.2.2 default (some hm)
    | _, _ => .typeError
  | _ => .typeError

/-- The `(value, retry)` pair returned by `_to_datetime`
(src/tabutils/convert.py:260-288): `(datetime, False)` on success,
`(content, True)` on `ValueError` (impossible date, retried), and
`(None, False)` on `TypeError` (unparseable, not retried). -/
inductive TDRes where
  | parsed (d : PyDateTime)
  | retryable (s : List Char)
  | unparseable
deriving DecidableEq

/-- `_to_datetime` (src/tabutils/convert.py:260-288). -/
def _to_datetime (content : List Char) : TDRes :=
  match parseModel content DEFAULT_DATETIME with
  | .ok d => .parsed d
  | .valueError => .retryable content
  | .typeError => .unparseable

def isRetry : TDRes → Bool
  | .retryable _ => true
  | _ => false

/-- `bad_nums = it.imap(str, xrange(29, 33))` (src/tabutils/convert.py:316):
the ascending list "29", "30", "31", "32". -/
def badNums : List (List Char) :=
  List.map String.toList ["29", "30", "31", "32"]

/-- `good_nums = it.imap(str, xrange(31, 27, -1))`
(src/tabutils/convert.py:317): the descending list "31", "30", "29", "28". -/
def goodNums : List (List Char) :=
  List.map String.toList ["31", "30", "29", "28"]

/-- The option list tried by `to_datetime` (src/tabutils/convert.py:319-325):
the first member of `bad_nums` occurring as a substring of the content (or
nothing, via `StopIteration`), then `content` followed by the four
substitution candidates `content.replace(bad_num, x)` for `x` in
`good_nums`. -/
def mkOptions (s : List Char) : List (List Char) :=
  match badNums.find? (fun b => containsSub s b) with
  | none => [s]
  | some bad => s :: goodNums.map (fun g => replaceAll s bad g)

/-- Result of `to_datetime`: a datetime object, or a `strftime`-formatted
string when a format is supplied. -/
inductive DtOut where
  | dtv (d : PyDateTime)
  | strv (s : List Char)
deriving DecidableEq

/-- Two-digit zero-padded rendering. -/
def twoDigits (n : Nat) : List Char :=
  if n < 10 then '0' :: Nat.toDigits 10 n else Nat.toDigits 10 n

/-- Minimal model of `datetime.strftime` over the directives `%Y %m %d %H %M
%S`; other characters are copied. -/
def strftimeModel (d : PyDateTime) (f : List Char) : List Char :=
  match f with
  | [] => []
  | '%' :: c :: rest =>
    (match c with
     | 'Y' => Nat.toDigits 10 d.year
     | 'm' => twoDigits d.month
     | 'd' => twoDigits d.day
     | 'H' => twoDigits d.hour
     | 'M' => twoDigits d.minute
     | 'S' => twoDigits d.second
     | other => ['%', other]) ++ strftimeModel d rest
  | c :: rest => c :: strftimeModel d rest

/-- `to_datetime` (src/tabutils/convert.py:291-337).  The membership test
`x in content` of the bad-number scan raises `TypeError` when `content` is
not a string; for strings, the first non-retry `_to_datetime` result over
`mkOptions` is taken (`StopIteration`, i.e. all candidates retryable, gives
`None`), and a `None` value with a format string would hit
`None.strftime`, an `AttributeError`. -/
def to_datetime (content : Scalar) (dt_format : Option (List Char)) :
    Except PyErr (Option DtOut) :=
  match content with
  | .str s =>
    match ((mkOptions s.toList).map _to_datetime).find? (fun r => !(isRetry r)) with
    | some (.parsed d) =>
      match dt_format with
      | none => .ok (some (.dtv d))
      | some f => .ok (some (.strv (strftimeModel d f)))
    | some .unparseable =>
      match dt_format with
      | none => .ok none
      | some _ => .error .attributeError
    | some (.retryable _) => .ok none
    | none => .ok none
  | _ => .error .typeError

/-- Result of `to_date`: a date object or a formatted string. -/
inductive DateOut where
  | datev (y m d : Nat)
  | strv (s : List Char)
deriving DecidableEq

/-- `to_date` (src/tabutils/convert.py:340-364):
`to_datetime(content).date()` with no `None` check — a `None` result from
`to_datetime` hits `None.date`, an `AttributeError` that propagates. -/
def to_date (content : Scalar) (date_format : Option (List Char)) :
    Except PyErr DateOut :=
  match to_datetime content none with
  | .error e => .error e
  | .ok none => .error .attributeError
  | .ok (some (.strv _)) => .error .attributeError
  | .ok (some (.dtv d)) =>
    match date_format with
    | none => .ok (.datev d.year d.month d.day)
    | some f => .ok (.strv (strftimeModel ⟨d.year, d.month, d.day, 0, 0, 0⟩ f))

/-- Result of `to_time`: a time object or a formatted string. -/
inductive TimeOut where
  | timev (h m s : Nat)
  | strv (s : List Char)
deriving DecidableEq

/-- `to_time` (src/tabutils/convert.py:367-391):
`to_datetime(content).time()` with no `None` check — a `None` result from
`to_datetime` hits `None.time`, an `AttributeError` that propagates. -/
def to_time (content : Scalar) (time_format : Option (List Char)) :
    Except PyErr TimeOut :=
  match to_datetime content none with
  | .error e => .error e
  | .ok none => .error .attributeError
  | .ok (some (.strv _)) => .error .attributeError
  | .ok (some (.dtv d)) =>
    match time_format with
    | none => .ok (.timev d.hour d.minute d.second)
    | some f => .ok (.strv (strftimeModel ⟨0, 0, 0, d.hour, d.minute, d.second⟩ f))

/-- First successful parse in a candidate list, where an impossible-date
signal moves on to the next candidate and an unparseable candidate stops
with no result. -/
def firstParse : List (List Char) → Option PyDateTime
  | [] => none
  | o :: rest =>
    match parseModel o DEFAULT_DATETIME with
    | .ok d => some d
    | .valueError => firstParse rest
    | .typeError => none

/-- The repair pipeline as the amended claim C4 states it: scan the ascending
list "29", "30", "31", "32" for the first member occurring as a substring of
the input, substitute every occurrence of it with the decreasing day values
31, 30, 29, 28 in that order (at most 4 repair candidates), and return the
first successful parse of the original followed by the candidates. -/
def specRepairAscending (s : String) : Option PyDateTime :=
  let l := s.toList
  let opts : List (List Char) :=
    match (List.map String.toList ["29", "30", "31", "32"]).find? (fun b => containsSub l b) with
    | none => [l]
    | some bad => l :: (List.map String.toList ["31", "30", "29", "28"]).map
        (fun g => replaceAll l bad g)
  firstParse opts

/-- The repair pipeline as claim C4 literally states it: the out-of-range day
candidates scanned in the DESCENDING list "32", "31", "30", "29" (everything
else as in the code). -/
def specRepairDescending (s : String) : Option PyDateTime :=
  let l := s.toList
  let opts : List (List Char) :=
    match (List.map String.toList ["32", "31", "30", "29"]).find? (fun b => containsSub l b) with
    | none => [l]
    | some bad => l :: (List.map String.toList ["31", "30", "29", "28"]).map
        (fun g => replaceAll l bad g)
  firstParse opts

/-- Swap the two separator characters throughout a string: rewrites a numeric
string into its swapped-locale spelling. -/
def swapChar (t d c : Char) : Char :=
  if c = t then d else if c = d then t else c

def swapSepsStr (t d : Char) (s : String) : String :=
  String.mk (s.toList.map (swapChar t d))

def exceptIsOk {ε α : Type} : Except ε α → Bool
  | .ok _ => true
  | .error _ => false

/-- When `quantize` succeeds, the result's exponent is the template
exponent. -/
lemma quantize_exp (d : DecimalModel) (e : Int) (r : Bool) (q : DecimalModel)
    (h : quantizeModel d e r = Except.ok q) : q.exp = e := by
  simp only [quantizeModel] at h
  split at h
  all_goals split at h
  all_goals cases h
  all_goals rfl

/-- The only exception `quantize` signals is `InvalidOperation`. -/
lemma quantize_error (d : DecimalModel) (e : Int) (r : Bool) (pe : PyErr)
    (h : quantizeModel d e r = Except.error pe) : pe = PyErr.invalidOperation := by
  simp only [quantizeModel] at h
  split at h
  all_goals split at h
  all_goals cases h
  all_goals rfl

/-- Splitting at a character that does not occur returns the list whole. -/
lemma splitChar_no_sep (sep : Char) (l : List Char) (h : ∀ c ∈ l, c ≠ sep) :
    splitChar sep l = [l] := by
  induction l with
  | nil => rfl
  | cons c rest ih =>
    have hc : c ≠ sep := h c (by simp)
    have hr : splitChar sep rest = [rest] := ih (fun x hx => h x (by simp [hx]))
    simp [splitChar, hc, hr]

lemma allDigits_append (a b : List Char) :
    allDigits (a ++ b) = (allDigits a && allDigits b) := by
  induction a with
  | nil => simp [allDigits]
  | cons c rest ih => simp [allDigits, ih, Bool.and_assoc]

lemma allDigits_replicate_zero (k : Nat) :
    allDigits (List.replicate k '0') = true := by
  induction k with
  | zero => rfl
  | succ n ih => simpa [List.replicate_succ, allDigits] using ih

lemma foldl_replicate_zero (k : Nat) :
    List.foldl (fun a c => a * 10 + (c.toNat - 48)) 0 (List.replicate k '0') = 0 := by
  induction k with
  | zero => rfl
  | succ n ih =>
    rw [List.replicate_succ, List.foldl_cons]
    have h0 : (0 : Nat) * 10 + (('0').toNat - 48) = 0 := by decide
    rw [h0]
    exact ih

/-- Parsing the quantization template `'.' ++ k zeros ++ "1"` yields the
decimal with mantissa 1 and exponent `-(k + 1)`. -/
lemma decimalOfChars_dot_zeros (k : Nat) :
    decimalOfChars ('.' :: (List.replicate k '0' ++ ['1'])) =
      some ⟨1, -((k + 1 : Nat) : Int)⟩ := by
  have hmem : ∀ c ∈ List.replicate k '0' ++ ['1'], c ≠ '.' := by
    intro c hc
    rcases List.mem_append.1 hc with h | h
    · rw [List.eq_of_mem_replicate h]; decide
    · simp at h; rw [h]; decide
  have hsplit : splitChar '.' (List.replicate k '0' ++ ['1']) =
      [List.replicate k '0' ++ ['1']] := splitChar_no_sep _ _ hmem
  have hdig : allDigits (List.replicate k '0' ++ ['1']) = true := by
    rw [allDigits_append, allDigits_replicate_zero]
    rfl
  have hval : digitsVal (List.replicate k '0' ++ ['1']) = 1 := by
    unfold digitsVal
    rw [List.foldl_append, foldl_replicate_zero]
    rfl
  have hne : (List.replicate k '0' ++ ['1']).isEmpty = false := by
    cases k <;> simp [List.replicate_succ]
  simp [decimalOfChars, splitChar, hsplit, hdig, hval, hne, allDigits]

/-- Parsing the `to_decimal` precision template. -/
lemma decimalOfChars_precision (p : Nat) :
    decimalOfChars (precisionChars p) = some ⟨1, -(((p - 1) + 1 : Nat) : Int)⟩ := by
  simpa [precisionChars] using decimalOfChars_dot_zeros (p - 1)

/-- The first non-retry `_to_datetime` outcome over a candidate list,
projected to its datetime, is the first successful parse. -/
lemma find_map_firstParse (opts : List (List Char)) :
    (match (opts.map _to_datetime).find? (fun r => !(isRetry r)) with
      | some (TDRes.parsed d) => some d
      | _ => none) = firstParse opts := by
  induction opts with
  | nil => rfl
  | cons o rest ih =>
    cases hp : parseModel o DEFAULT_DATETIME with
    | ok d =>
      have h1 : _to_datetime o = TDRes.parsed d := by simp [_to_datetime, hp]
      simp [firstParse, hp, h1, List.find?, isRetry]
    | valueError =>
      have h1 : _to_datetime o = TDRes.retryable o := by simp [_to_datetime, hp]
      simpa [firstParse, hp, h1, List.find?, isRetry] using ih
    | typeError =>
      have h1 : _to_datetime o = TDRes.unparseable := by simp [_to_datetime, hp]
      simp [firstParse, hp, h1, List.find?, isRetry]

/-- `to_datetime` on a string with no format is the first successful parse of
the repair-candidate list. -/
lemma to_datetime_str_none (s : String) :
    to_datetime (Scalar.str s) none =
      Except.ok (Option.map DtOut.dtv (firstParse (mkOptions s.toList))) := by
  rw [← find_map_firstParse (mkOptions s.toList)]
  simp only [to_datetime]
  rcases h : ((mkOptions s.toList).map _to_datetime).find? (fun r => !(isRetry r)) with _ | r
  · simp [h]
  · cases r <;> simp [h]

/-- Swapping the separator pair commutes with per-character normalization. -/
lemma normChar_swap (t d c : Char) :
    normChar d t (swapChar t d c) = normChar t d c := by
  by_cases h1 : c = t
  · subst h1; simp [swapChar, normChar]
  · by_cases h2 : c = d
    · subst h2
      simp [swapChar, normChar, h1, Ne.symm h1]
    · simp [swapChar, normChar, h1, h2]

/-- Swapping the separator pair commutes with separator normalization. -/
lemma stripChars_swap (t d : Char) (l : List Char) :
    stripChars d t (l.map (swapChar t d)) = stripChars t d l := by
  induction l with
  | nil => rfl
  | cons c rest ih =>
    simp only [List.map_cons, stripChars, List.filterMap_cons] at *
    rw [normChar_swap]
    cases h : normChar t d c <;> simp [h, ih]

/-- `to_float` on a string is the float parse of the normalized characters. -/
lemma to_float_str (s : String) (t d : Char) :
    to_float (Scalar.str s) t d =
      match floatOfChars (stripChars t d s.toList) with
      | none => Except.ok none
      | some q => Except.ok (some q) :=
  rfl

/-- C1 counterexample: `to_date` does NOT terminate normally on every input —
on the unparseable string "Novmbr 4" the `None` returned by `to_datetime`
hits `None.date()` and an `AttributeError` escapes, refuting the claim that
every public coercer returns the null sentinel instead of raising. -/
theorem to_date_raises_on_unparseable :
    to_date (Scalar.str ("Novmbr 4")) none = Except.error PyErr.attributeError := by
  rfl

/-- C1 (amended): `to_bool` and `to_float` terminate without raising on
every input (`to_float` saturating over-range literals to infinity), and
`to_datetime` does so on every string input, returning the null sentinel
(`False` for `to_bool`) on unparseable input; but `to_int` raises
`OverflowError` when the parsed float is infinite (`int(inf)`, uncaught),
`to_decimal` raises `InvalidOperation` when the quantized coefficient
exceeds the default context precision of 28 digits (the `quantize` call is
outside the `try/except`) — and those are their only escaping exceptions —
while `to_date` and `to_time` raise `AttributeError` when the datetime parse
of their input fails, and `to_datetime` raises `TypeError` on non-string
input. -/
theorem coercers_total_amended :
    (∀ (c : Scalar) (t d : Char), exceptIsOk (to_float c t d) = true) ∧
    (∀ (c : Scalar) (t d : Char),
      to_int c t d = Except.error PyErr.overflowError ∨
        exceptIsOk (to_int c t d) = true) ∧
    (∀ (c : Scalar) (t d : Char) (r : Bool) (p : Nat),
      to_decimal c t d r p = Except.error PyErr.invalidOperation ∨
        exceptIsOk (to_decimal c t d r p) = true) ∧
    (∀ s : String, exceptIsOk (to_datetime (Scalar.str s) none) = true) ∧
    to_bool (Scalar.str ("spam")) none none = false ∧
    to_int (Scalar.str ("spam")) ',' '.' = Except.ok none ∧
    to_int (Scalar.str hugeLiteral) ',' '.' = Except.error PyErr.overflowError ∧
    to_decimal (Scalar.str (String.mk (List.replicate 29 '1'))) ',' '.' true 2 =
      Except.error PyErr.invalidOperation ∧
    to_datetime (Scalar.str ("Novmbr 4")) none = Except.ok none ∧
    to_time (Scalar.str ("Novmbr 4")) none = Except.error PyErr.attributeError ∧
    to_datetime (Scalar.intV 5) none = Except.error PyErr.typeError := by
  refine ⟨?_, ?_, ?_, ?_, rfl, rfl, by decide, by decide, rfl, rfl, rfl⟩
  · intro c t d
    unfold to_float
    cases h : (stripScalar c t d).bind floatOfChars <;> rfl
  · intro c t d
    unfold to_int
    cases h : (stripScalar c t d).bind floatOfChars with
    | none => right; rfl
    | some f => cases f with
      | finite n s => right; rfl
      | inf b => left; rfl
  · intro c t d r p
    unfold to_decimal
    cases h : (stripScalar c t d).bind decimalOfChars with
    | none => right; rfl
    | some d0 =>
      cases h2 : decimalOfChars (precisionChars p) with
      | none => right; rfl
      | some prec =>
        cases hq : quantizeModel d0 prec.exp r with
        | ok q => right; simp [hq, exceptIsOk]
        | error e =>
          left
          have he := quantize_error d0 prec.exp r e hq
          subst he
          simp [hq]
  · intro s
    rw [to_datetime_str_none]
    rfl

/-- C2 counterexample: `to_datetime(None)` does not return the null sentinel:
the bad-number scan's membership test `x in content` raises `TypeError` on
`None` before any parsing is attempted. -/
theorem to_datetime_raises_on_none :
    to_datetime Scalar.noneV none ≠ Except.ok none := by
  decide

/-- C2 (amended): for input `None`, `to_bool` returns `False` and `to_int`,
`to_float`, `to_decimal` return the null sentinel without raising; but
`to_datetime`, `to_date` and `to_time` raise `TypeError` on `None`. -/
theorem none_input_amended :
    to_bool Scalar.noneV none none = false ∧
    to_int Scalar.noneV ',' '.' = Except.ok none ∧
    to_float Scalar.noneV ',' '.' = Except.ok none ∧
    to_decimal Scalar.noneV ',' '.' true 2 = Except.ok none ∧
    to_datetime Scalar.noneV none = Except.error PyErr.typeError ∧
    to_date Scalar.noneV none = Except.error PyErr.typeError ∧
    to_time Scalar.noneV none = Except.error PyErr.typeError :=
  ⟨rfl, rfl, rfl, rfl, rfl, rfl, rfl⟩

/-- C3 counterexample: at `places = 0` the quantization template is `'.1'`,
which has one digit after the decimal point, not zero, and `to_decimal`
accordingly returns a result with one fractional digit
(`to_decimal('1.26', places=0) = Decimal('1.3')`). -/
theorem to_decimal_places_zero_cx :
    precisionChars 0 = ['.', '1'] ∧
    ((precisionChars 0).drop 1).length ≠ 0 ∧
    to_decimal (Scalar.str ("1.26")) ',' '.' true 0 =
      Except.ok (some (⟨13, -1⟩ : DecimalModel)) ∧
    (⟨13, -1⟩ : DecimalModel).exp ≠ -(0 : Int) := by
  refine ⟨rfl, by decide, rfl, by decide⟩

/-- C3 (amended): for every POSITIVE integer `places` (Python default 2) the
quantization template has exactly `places` digits after the decimal point,
and whenever `to_decimal` returns a value that value is quantized to exactly
`places` fractional digits; but when the quantized coefficient would be
longer than the default context precision of 28 digits, `to_decimal` raises
`InvalidOperation` instead of returning a value (e.g. `places = 50` on
"1.5"), and for `places = 0` the template degenerates to `'.1'`, i.e. one
fractional digit. -/
theorem to_decimal_places_amended (places : Nat) (h : 1 ≤ places) :
    ((precisionChars places).drop 1).length = places ∧
    (∀ (c : Scalar) (t d : Char) (r : Bool) (dec : DecimalModel),
      to_decimal c t d r places = Except.ok (some dec) → dec.exp = -(places : Int)) ∧
    to_decimal (Scalar.str ("1.5")) ',' '.' true 50 =
      Except.error PyErr.invalidOperation := by
  refine ⟨?_, ?_, by decide⟩
  · simp [precisionChars]
    omega
  · intro c t d r dec hp
    unfold to_decimal at hp
    cases hb : (stripScalar c t d).bind decimalOfChars with
    | none => rw [hb] at hp; cases hp
    | some d0 =>
      simp only [hb, decimalOfChars_precision] at hp
      cases hq : quantizeModel d0 (-(((places - 1) + 1 : Nat) : Int)) r with
      | error e =>
        simp only [hq] at hp
        cases hp
      | ok q =>
        simp only [hq, Except.ok.injEq, Option.some.injEq] at hp
        subst hp
        have he := quantize_exp _ _ _ _ hq
        rw [he]
        have h2 : (places - 1) + 1 = places := by omega
        rw [h2]

/-- C3 witness: at `places = 2` (the default) the template has 2 fractional
digits, and the quantized result of the successfully parsed "1.554" has
exponent -2. -/
theorem to_decimal_places_amended_witness :
    ((precisionChars 2).drop 1).length = 2 ∧
    ((⟨155, -2⟩ : DecimalModel).exp = -(2 : Int)) :=
  ⟨(to_decimal_places_amended 2 (by decide)).1,
   (to_decimal_places_amended 2 (by decide)).2.1
     (Scalar.str ("1.554")) ',' '.' true (⟨155, -2⟩ : DecimalModel) rfl⟩

/-- C4 counterexample: the bad-day scan is NOT descending.  On "2/32/2029"
the code scans 29,30,31,32 ascending and selects "29" (part of the year), so
every repair candidate keeps the impossible day 32 and `to_datetime` returns
the null sentinel, whereas the descending scan the claim describes would
select "32" and repair the input to 2029-02-28. -/
theorem to_datetime_scan_order_cx :
    to_datetime (Scalar.str ("2/32/2029")) none = Except.ok none ∧
    specRepairDescending ("2/32/2029") =
      some (⟨2029, 2, 28, 0, 0, 0⟩ : PyDateTime) ∧
    to_datetime (Scalar.str ("2/32/2029")) none ≠
      Except.ok (Option.map DtOut.dtv (specRepairDescending ("2/32/2029"))) := by
  refine ⟨rfl, rfl, by decide⟩

/-- C4 (amended): in `to_datetime`'s repair heuristic the out-of-range day
candidates are scanned in an ASCENDING list (29 up to 32); the first
candidate present as a substring of the input is selected, repair candidates
substitute it with the decreasing day values 31, 30, 29, 28 in that order, at
most 4 repair candidates are tried (5 parse attempts counting the original),
and the first successful parse is returned, an unparseable candidate
stopping the scan with the null sentinel. -/
theorem to_datetime_repair_amended :
    (∀ s : String,
      to_datetime (Scalar.str s) none =
        Except.ok (Option.map DtOut.dtv (specRepairAscending s))) ∧
    (∀ s : String, (mkOptions s.toList).length ≤ 5) := by
  constructor
  · intro s
    rw [to_datetime_str_none]
    rfl
  · intro s
    unfold mkOptions
    rcases h : badNums.find? (fun b => containsSub s.toList b) with _ | bad <;>
      simp [h, goodNums]

/-- C5 (code bug): the `falses` parameter of `to_bool` is documented
("Values to consider [False]") but never read by the body: supplying
`falses=['true']` does not make `to_bool('true', ...)` false, and the result
is independent of the `falses` argument altogether. -/
theorem to_bool_ignores_falses :
    to_bool (Scalar.str ("true")) none (some ["true"]) = true ∧
    (∀ (c : Scalar) (t f f' : Option (List String)), to_bool c t f = to_bool c t f') :=
  ⟨rfl, fun _ _ _ _ => rfl⟩

/-- C6: `to_decimal` rounding at the default 2 places: "1.554" ↦ 1.55,
"1.555" ↦ 1.56 with `roundup=True` (the default), "1.555" ↦ 1.55 with
`roundup=False`, and "1.556" ↦ 1.56. -/
theorem to_decimal_rounding_examples :
    to_decimal (Scalar.str ("1.554")) ',' '.' true 2 =
      Except.ok (some (⟨155, -2⟩ : DecimalModel)) ∧
    to_decimal (Scalar.str ("1.555")) ',' '.' true 2 =
      Except.ok (some (⟨156, -2⟩ : DecimalModel)) ∧
    to_decimal (Scalar.str ("1.555")) ',' '.' false 2 =
      Except.ok (some (⟨155, -2⟩ : DecimalModel)) ∧
    to_decimal (Scalar.str ("1.556")) ',' '.' true 2 =
      Except.ok (some (⟨156, -2⟩ : DecimalModel)) :=
  ⟨rfl, rfl, rfl, rfl⟩

/-- C7: `to_datetime("2/32/82")` repairs the impossible date to the valid
datetime 1982-02-28 (day clamped downward), while the genuinely unparseable
"Novmbr 4" returns the null sentinel with no repair attempted (its candidate
list is just the input itself). -/
theorem to_datetime_repair_examples :
    to_datetime (Scalar.str ("2/32/82")) none =
      Except.ok (some (DtOut.dtv (⟨1982, 2, 28, 0, 0, 0⟩ : PyDateTime))) ∧
    to_datetime (Scalar.str ("Novmbr 4")) none = Except.ok none ∧
    mkOptions (("Novmbr 4").toList) = [("Novmbr 4").toList] :=
  ⟨rfl, rfl, rfl⟩

/-- C8: `to_int` is exactly `int()` applied to `to_float`'s result on every
input and separator pair — truncation toward zero on finite floats, the
propagated `OverflowError` on infinite ones — and both return the null
sentinel when normalization or parsing fails, e.g. on the empty string or
"spam". -/
theorem to_int_eq_trunc_to_float :
    (∀ (c : Scalar) (t d : Char),
      to_int c t d =
        (to_float c t d).bind (fun o =>
          match o with
          | none => Except.ok none
          | some f =>
            match pyTrunc f with
            | .ok n => Except.ok (some n)
            | .error e => Except.error e)) ∧
    to_int (Scalar.str ("spam")) ',' '.' = Except.ok none ∧
    to_float (Scalar.str ("spam")) ',' '.' = Except.ok none ∧
    to_int (Scalar.str ("")) ',' '.' = Except.ok none ∧
    to_float (Scalar.str ("")) ',' '.' = Except.ok none ∧
    to_float (Scalar.str hugeLiteral) ',' '.' =
      Except.ok (some (FloatModel.inf false)) := by
  refine ⟨?_, rfl, rfl, rfl, rfl, by decide⟩
  intro c t d
  unfold to_int to_float
  cases h : (stripScalar c t d).bind floatOfChars <;> rfl

/-- C9: a numeric string rewritten into its swapped-locale spelling parses to
the same number when the swapped separator pair is supplied — in general,
and in particular `to_float("2.123,45", thousand_sep='.', decimal_sep=',')`
equals `to_float("2,123.45")` with the default separators (both 2123.45). -/
theorem to_float_swapped_separators :
    (∀ (t d : Char) (s : String),
      to_float (Scalar.str (swapSepsStr t d s)) d t = to_float (Scalar.str s) t d) ∧
    swapSepsStr ',' '.' ("2,123.45") = ("2.123,45") ∧
    to_float (Scalar.str ("2.123,45")) '.' ',' =
      Except.ok (some (FloatModel.finite 212345 2)) ∧
    to_float (Scalar.str ("2,123.45")) ',' '.' =
      Except.ok (some (FloatModel.finite 212345 2)) := by
  refine ⟨?_, rfl, rfl, rfl⟩
  intro t d s
  rw [to_float_str, to_float_str]
  rw [show (swapSepsStr t d s).toList = s.toList.map (swapChar t d) from rfl]
  rw [stripChars_swap]

/-- C10: the repair substitution replaces EVERY occurrence of the matched
substring, so for "2/29/29" (year 2029 is not a leap year) the candidate
list rewrites the year digits too, and the returned datetime is 2028-02-28:
the year is altered along with the day. -/
theorem to_datetime_replace_all_occurrences :
    to_datetime (Scalar.str ("2/29/29")) none =
      Except.ok (some (DtOut.dtv (⟨2028, 2, 28, 0, 0, 0⟩ : PyDateTime))) ∧
    mkOptions (("2/29/29").toList) =
      List.map String.toList ["2/29/29", "2/31/31", "2/30/30", "2/29/29", "2/28/28"] ∧
    replaceAll (("2/29/29").toList) (("29").toList) (("28").toList) = ("2/28/28").toList :=
  ⟨rfl, rfl, rfl⟩
